import Mathlib

/-!
Verification of the deterministic simulation core of the game `jump`
(`src/game.rs`, `src/level.rs`): the fixed-timestep player and camera
movement systems, the sphere-sphere collision check, and the seeded
procedural level generator.

Numeric model: the source uses `f32`; arithmetic is embedded over `ℚ`.
The PRNG (`ChaCha8Rng::seed_from_u64` plus `gen_range`) is embedded as
abstract value streams indexed by the seed and by the position of the
call in the generation sequence; every `gen_range` call is additionally
recorded in a trace so that the contractual call ordering of `Level::new`
can be stated and proved.
-/

namespace Jump

/-- Lockstep for the game engine (`TIME_STEP: f32 = 1.0 / 60.0` in `game.rs`). -/
def TIME_STEP : ℚ := 1 / 60

/-- Initial upwards velocity for the jump (`JUMP_INITIAL_VELOCITY: f32 = 5.0`). -/
def JUMP_INITIAL_VELOCITY : ℚ := 5

/-- Gravity constant for the jump (`GRAVITY: f32 = 5.0`). -/
def GRAVITY : ℚ := 5

/-- Default movement speed in the autoscroller (`SCROLL_VELOCITY: f32 = 2.0`). -/
def SCROLL_VELOCITY : ℚ := 2

/-- Boost velocity when the boost button is pressed (`BOOST_VELOCITY: f32 = 5.0`). -/
def BOOST_VELOCITY : ℚ := 5

/-- Radius of the spheres, both for player and obstacles (`SPHERE_RADIUS: f32 = 0.5`). -/
def SPHERE_RADIUS : ℚ := 1 / 2

/-- The two states of the vertical movement state machine (`enum JumpState` in `game.rs`). -/
inductive JumpState where
  | OnFloor
  | InAir
deriving DecidableEq

/-- Keyboard snapshot consumed by one tick: `jump` models
`keyboard_input.pressed(KeyCode::Space)` and `boost` models
`keyboard_input.pressed(KeyCode::Right)`. -/
structure Input where
  jump : Bool
  boost : Bool
deriving DecidableEq

/-- The `Player` component of `game.rs` together with the `x`/`y` coordinates
of the player entity's `Transform` translation (the source stores the position
in the transform; the `z` coordinate is constant `0.0` and omitted). -/
structure Player where
  x : ℚ
  y : ℚ
  velocity_x : ℚ
  velocity_y : ℚ
  jumping : JumpState
  collided : Bool
deriving DecidableEq

/-- The `Camera` component of `game.rs` together with the `x` coordinate of the
camera entity's `Transform` translation (`y` and `z` are never written). -/
structure Camera where
  x : ℚ
  velocity_x : ℚ
  stopped : Bool
deriving DecidableEq

/-- `Player::default()` combined with the player spawn translation
`Transform::from_xyz(-5.0, 0.0, 0.0)` from `game_setup`. -/
def Player.default : Player :=
  { x := -5
    y := 0
    velocity_x := SCROLL_VELOCITY
    velocity_y := 0
    jumping := JumpState.OnFloor
    collided := false }

/-- `Camera::default()` combined with the camera spawn translation
`Transform::from_xyz(0.0, 0.0, 8.0)` from `game_setup` (only `x` is modelled). -/
def Camera.default : Camera :=
  { x := 0
    velocity_x := SCROLL_VELOCITY
    stopped := false }

/-- The mutable per-run world state: the single player entity and the single
camera entity operated on by the movement and collision systems. -/
structure World where
  player : Player
  camera : Camera
deriving DecidableEq

/-- World state at game entry. -/
def World.default : World :=
  { player := Player.default, camera := Camera.default }

/-- `player_movement_system` of `game.rs` for the in-game case (the early
return for a missing entity is a menu-screen concern and outside the world
model).  The successive `let` bindings mirror the successive mutations of the
source: early return on `collided`, horizontal velocity selection, horizontal
integration, jump trigger, floor clamp, gravity, vertical integration. -/
def player_movement_system (input : Input) (p : Player) : Player :=
  if p.collided then p
  else
    let p1 : Player :=
      { p with velocity_x := if input.boost then BOOST_VELOCITY else SCROLL_VELOCITY }
    let p2 : Player := { p1 with x := p1.x + p1.velocity_x * TIME_STEP }
    let p3 : Player :=
      if input.jump then
        match p2.jumping with
        | JumpState.OnFloor =>
            { p2 with jumping := JumpState.InAir, velocity_y := JUMP_INITIAL_VELOCITY }
        | JumpState.InAir => p2
      else p2
    let p4 : Player :=
      if p3.y < 0 then { p3 with jumping := JumpState.OnFloor, velocity_y := 0, y := 0 }
      else p3
    let p5 : Player := { p4 with velocity_y := p4.velocity_y - GRAVITY * TIME_STEP }
    match p5.jumping with
    | JumpState.OnFloor => { p5 with y := 0 }
    | JumpState.InAir => { p5 with y := p5.y + p5.velocity_y * TIME_STEP }

/-- `camera_movement_system` of `game.rs` for the in-game case: early return on
`stopped`, horizontal velocity selection, horizontal integration. -/
def camera_movement_system (input : Input) (c : Camera) : Camera :=
  if c.stopped then c
  else
    let c1 : Camera :=
      { c with velocity_x := if input.boost then BOOST_VELOCITY else SCROLL_VELOCITY }
    { c1 with x := c1.x + c1.velocity_x * TIME_STEP }

/-- Sphere-overlap test used by `check_for_collisions`.  The source computes
`((x2 - x1).powf(2.0) + (y2 - y1).powf(2.0)).sqrt() <= SPHERE_RADIUS * 2.0`;
both sides of that comparison are nonnegative and the threshold is exactly
`1.0`, so comparing the squared distance against `(SPHERE_RADIUS * 2) ^ 2` is
equivalent.  The equivalence with the square-root form over `ℝ` is proved in
`collides_iff_sqrt`. -/
def collides (x1 y1 x2 y2 : ℚ) : Bool :=
  decide ((x2 - x1) ^ 2 + (y2 - y1) ^ 2 ≤ (SPHERE_RADIUS * 2) ^ 2)

/-- `check_for_collisions` of `game.rs`: the player translation `(x1, y1)` is
read once before the loop; for every collider (the spawned obstacles) within
`SPHERE_RADIUS * 2.0` of it, a `CollisionEvent` is sent (modelled by the `ℕ`
counter), `player.collided` is set and `camera.stopped` is set.  Obstacles are
given by the `(x, y)` centers of their spawn translations. -/
def check_for_collisions (obstacles : List (ℚ × ℚ)) (p : Player) (c : Camera) :
    Player × Camera × ℕ :=
  obstacles.foldl
    (fun st o =>
      if collides p.x p.y o.1 o.2 then
        ({ st.1 with collided := true }, { st.2.1 with stopped := true }, st.2.2 + 1)
      else st)
    (p, c, 0)

/-- One fixed-timestep simulation tick together with the number of
`CollisionEvent`s it sends: the schedule registers
`player_movement_system`, `camera_movement_system` and `check_for_collisions`
on the same `FixedTimestep::step(TIME_STEP)` criteria, in that contractual
order (§5 of the spec); the two movement systems touch disjoint state. -/
def tick_with_events (obstacles : List (ℚ × ℚ)) (input : Input) (w : World) :
    World × ℕ :=
  let p := player_movement_system input w.player
  let c := camera_movement_system input w.camera
  let r := check_for_collisions obstacles p c
  ({ player := r.1, camera := r.2.1 }, r.2.2)

/-- One simulation tick (world-state part of `tick_with_events`). -/
def tick (obstacles : List (ℚ × ℚ)) (input : Input) (w : World) : World :=
  (tick_with_events obstacles input w).1

/-- Runs the simulation from a given world state, one tick per input. -/
def runFrom (obstacles : List (ℚ × ℚ)) (w : World) (inputs : List Input) : World :=
  inputs.foldl (fun acc i => tick obstacles i acc) w

/-- Runs the simulation from game entry, one tick per input. -/
def run (obstacles : List (ℚ × ℚ)) (inputs : List Input) : World :=
  runFrom obstacles World.default inputs

/-- Total number of `CollisionEvent`s sent over a whole run. -/
def run_events (obstacles : List (ℚ × ℚ)) (inputs : List Input) : ℕ :=
  (inputs.foldl
    (fun st i =>
      let r := tick_with_events obstacles i st.1
      (r.1, st.2 + r.2))
    (World.default, 0)).2

/-- Index of the first tick after which `player.collided` holds, if any. -/
def collisionTickAux (obstacles : List (ℚ × ℚ)) :
    World → ℕ → List Input → Option ℕ
  | _, _, [] => none
  | w, k, i :: rest =>
    let w2 := tick obstacles i w
    if w2.player.collided then some k else collisionTickAux obstacles w2 (k + 1) rest

/-- Index of the first tick of a run after which `player.collided` holds. -/
def collision_tick (obstacles : List (ℚ × ℚ)) (inputs : List Input) : Option ℕ :=
  collisionTickAux obstacles World.default 0 inputs

/-- Number of obstacles in a level (`OBSTACLE_COUNT: u32 = 40` in `level.rs`). -/
def OBSTACLE_COUNT : ℕ := 40

/-- Number of lights in a level (`LIGHT_COUNT: u32 = 150`). -/
def LIGHT_COUNT : ℕ := 150

/-- Leftmost background column (`LEVEL_MIN_X: i32 = -10`). -/
def LEVEL_MIN_X : ℤ := -10

/-- Rightmost extent of the level (`LEVEL_MAX_X: i32 = 200`). -/
def LEVEL_MAX_X : ℤ := 200

/-- One recorded `gen_range` call of the PRNG: either a float call with bounds
`lo` and `hi` (half-open `[lo, hi)`), or an integer call likewise. -/
inductive RngCall where
  | rangeF (lo hi : ℚ)
  | rangeU (lo hi : ℕ)
deriving DecidableEq

/-- State of the embedded PRNG: `k` counts how many `gen_range` calls have been
made so far (it indexes the abstract value streams), and `trace` records the
calls made, most recent first. -/
structure RngState where
  k : ℕ
  trace : List RngCall
deriving DecidableEq

/-- `rng.gen_range(lo..hi)` for floats: the value is drawn from the abstract
stream `f` at the current call index, and the call is recorded. -/
def gen_range_f (f : ℕ → ℚ → ℚ → ℚ) (lo hi : ℚ) (s : RngState) : ℚ × RngState :=
  (f s.k lo hi, { k := s.k + 1, trace := RngCall.rangeF lo hi :: s.trace })

/-- `rng.gen_range(lo..hi)` for unsigned integers: the value is drawn from the
abstract stream `g` at the current call index, and the call is recorded. -/
def gen_range_u (g : ℕ → ℕ → ℕ → ℕ) (lo hi : ℕ) (s : RngState) : ℕ × RngState :=
  (g s.k lo hi, { k := s.k + 1, trace := RngCall.rangeU lo hi :: s.trace })

/-- Decimal formatting `format!("{:06}", n)` as a list of characters: the
base-10 digits of `n` (most significant first), left-padded with `'0'` to
width 6. -/
def format6 (n : ℕ) : List Char :=
  let ds := ((Nat.digits 10 n).reverse).map Nat.digitChar
  List.replicate (6 - ds.length) '0' ++ ds

/-- Value of one hexadecimal digit character, `none` for a non-hex character. -/
def hexDigitVal (c : Char) : Option ℕ :=
  if '0' ≤ c ∧ c ≤ '9' then some (c.toNat - 48)
  else if 'a' ≤ c ∧ c ≤ 'f' then some (c.toNat - 87)
  else if 'A' ≤ c ∧ c ≤ 'F' then some (c.toNat - 55)
  else none

/-- `Color::hex` of the host engine restricted to the shape produced by
`random_material`: a string of exactly six hexadecimal digits parses to its
24-bit value, anything else is rejected (the engine also accepts lengths 3, 4
and 8, which `format!("{:06}", _)` of a value below `10^7` never produces). -/
def colorHex (cs : List Char) : Option ℕ :=
  if cs.length = 6 then
    cs.foldl (fun acc c => acc.bind fun a => (hexDigitVal c).map fun d => a * 16 + d)
      (some 0)
  else none

/-- A `StandardMaterial` as far as the level generator sets it: the parsed
base color (`none` models a `Color::hex` failure, which the source would turn
into an `unwrap` panic) and the two scalar parameters. -/
structure StandardMaterial where
  base_color : Option ℕ
  metallic : ℚ
  perceptual_roughness : ℚ
deriving DecidableEq

/-- `random_material` of `level.rs`: draws `metallic ∈ [0,1)`, then
`perceptual_roughness ∈ [0,1)`, then `color ∈ [0, 99_99_99)`, formats the color
as a zero-padded six-digit decimal string and parses it as a hex color. -/
def random_material (f : ℕ → ℚ → ℚ → ℚ) (g : ℕ → ℕ → ℕ → ℕ) (rng : RngState) :
    StandardMaterial × RngState :=
  let m := gen_range_f f 0 1 rng
  let r := gen_range_f f 0 1 m.2
  let c := gen_range_u g 0 999999 r.2
  let color := format6 c.1
  ({ base_color := colorHex color, metallic := m.1, perceptual_roughness := r.1 }, c.2)

/-- An obstacle of the level (`struct Obstacle` in `level.rs`). -/
structure Obstacle where
  x : ℚ
  y : ℚ
  material : StandardMaterial
deriving DecidableEq

/-- A background object of the level (`struct BgObject` in `level.rs`). -/
structure BgObject where
  x : ℚ
  y : ℚ
  z : ℚ
  material : StandardMaterial
deriving DecidableEq

/-- A representation of a game level (`struct Level` in `level.rs`). -/
structure Level where
  obstacles : List Obstacle
  lights : List (ℚ × ℚ)
  seed : ℕ
  bg_objects : List BgObject
deriving DecidableEq

/-- Body of the obstacle generation loop of `Level::new`: draw
`x ∈ [1, LEVEL_MAX_X)`, draw `y ∈ [0, 1)`, draw a material, push the
obstacle (`Vec::push` is modelled by consing onto a reversed accumulator). -/
def obstacle_step (f : ℕ → ℚ → ℚ → ℚ) (g : ℕ → ℕ → ℕ → ℕ)
    (st : List Obstacle × RngState) : List Obstacle × RngState :=
  let xr := gen_range_f f 1 ((LEVEL_MAX_X : ℚ)) st.2
  let yr := gen_range_f f 0 1 xr.2
  let mr := random_material f g yr.2
  ({ x := xr.1, y := yr.1, material := mr.1 } :: st.1, mr.2)

/-- Body of the light generation loop of `Level::new`: draw
`x ∈ [1, LEVEL_MAX_X)`, draw `y ∈ [0, 10)`, push the pair. -/
def light_step (f : ℕ → ℚ → ℚ → ℚ)
    (st : List (ℚ × ℚ) × RngState) : List (ℚ × ℚ) × RngState :=
  let xr := gen_range_f f 1 ((LEVEL_MAX_X : ℚ)) st.2
  let yr := gen_range_f f 0 10 xr.2
  ((xr.1, yr.1) :: st.1, yr.2)

/-- Body of the inner background loop of `Level::new` at column `x` and row
`j`: draw `z ∈ [1, 2)` (negated), draw a material, push the object. -/
def bg_cell_step (f : ℕ → ℚ → ℚ → ℚ) (g : ℕ → ℕ → ℕ → ℕ) (x : ℤ) (j : ℕ)
    (st : List BgObject × RngState) : List BgObject × RngState :=
  let zr := gen_range_f f 1 2 st.2
  let mr := random_material f g zr.2
  ({ x := (x : ℚ), y := (j : ℚ), z := -zr.1, material := mr.1 } :: st.1, mr.2)

/-- One column of the background loop of `Level::new`: the inner
`for y in 0..10` loop at column `LEVEL_MIN_X + i`. -/
def bg_column_step (f : ℕ → ℚ → ℚ → ℚ) (g : ℕ → ℕ → ℕ → ℕ) (i : ℕ)
    (st : List BgObject × RngState) : List BgObject × RngState :=
  (List.range 10).foldl (fun st2 j => bg_cell_step f g (LEVEL_MIN_X + (i : ℤ)) j st2) st

/-- `Level::new(seed)` of `level.rs`, parameterised by the abstract PRNG
streams `F` (floats) and `G` (integers); `F seed` and `G seed` play the role of
`ChaCha8Rng::seed_from_u64(seed)`.  The three generation loops mirror the
source: 40 obstacles, 150 lights, then background objects for
`x in LEVEL_MIN_X..LEVEL_MAX_X` with an inner loop over `y in 0..10`.
`Vec::push` is modelled by consing onto a reversed accumulator which is
reversed once at the end.  The final `RngState` carries the full call trace. -/
def Level.new (F : ℕ → ℕ → ℚ → ℚ → ℚ) (G : ℕ → ℕ → ℕ → ℕ → ℕ) (seed : ℕ) :
    Level × RngState :=
  let f := F seed
  let g := G seed
  let rng0 : RngState := { k := 0, trace := [] }
  let ob :=
    (List.range OBSTACLE_COUNT).foldl (fun st _ => obstacle_step f g st)
      (([] : List Obstacle), rng0)
  let li :=
    (List.range LIGHT_COUNT).foldl (fun st _ => light_step f st)
      (([] : List (ℚ × ℚ)), ob.2)
  let bg :=
    (List.range ((LEVEL_MAX_X - LEVEL_MIN_X).toNat)).foldl
      (fun st i => bg_column_step f g i st)
      (([] : List BgObject), li.2)
  ({ obstacles := ob.1.reverse
     lights := li.1.reverse
     seed := seed
     bg_objects := bg.1.reverse }, bg.2)

/-- The `gen_range` calls made by one `random_material` call, in call order
(spec §4.2: `metallic ∈ [0,1)`, `perceptual_roughness ∈ [0,1)`,
`color ∈ [0, 999_999)`). -/
def material_trace : List RngCall :=
  [RngCall.rangeF 0 1, RngCall.rangeF 0 1, RngCall.rangeU 0 999999]

/-- The `gen_range` calls made for one obstacle, in call order (spec §4.2
step 2): `x ∈ [1, 200)`, `y ∈ [0, 1)`, then a material. -/
def obstacle_block : List RngCall :=
  [RngCall.rangeF 1 ((LEVEL_MAX_X : ℚ)), RngCall.rangeF 0 1] ++ material_trace

/-- The `gen_range` calls made for one light, in call order (spec §4.2
step 3): `x ∈ [1, 200)`, `y ∈ [0, 10)`. -/
def light_block : List RngCall :=
  [RngCall.rangeF 1 ((LEVEL_MAX_X : ℚ)), RngCall.rangeF 0 10]

/-- The `gen_range` calls made for one background cell, in call order (spec
§4.2 step 4): `z ∈ [1, 2)`, then a material. -/
def bg_block : List RngCall :=
  [RngCall.rangeF 1 2] ++ material_trace

/-- The contractual `gen_range` call sequence of the level generator, built
from the words of spec §4.2: 40 obstacle blocks, then 150 light blocks, then
`(200 - (-10)) * 10` background-cell blocks. -/
def contractual_trace : List RngCall :=
  (List.replicate OBSTACLE_COUNT obstacle_block).flatten ++
  (List.replicate LIGHT_COUNT light_block).flatten ++
  (List.replicate ((LEVEL_MAX_X - LEVEL_MIN_X).toNat * 10) bg_block).flatten

/-- Obstacle centers of a level, the only level data the simulation tick
consumes (the obstacles are spawned at `Transform::from_xyz(o.x, o.y, 0.0)`). -/
def obstacle_centers (l : Level) : List (ℚ × ℚ) :=
  l.obstacles.map fun o => (o.x, o.y)

/-- A whole run of the game: generate the level from the seed, then run the
simulation over it, one tick per input. -/
def full_run (F : ℕ → ℕ → ℚ → ℚ → ℚ) (G : ℕ → ℕ → ℕ → ℕ → ℕ) (seed : ℕ)
    (inputs : List Input) : World :=
  run (obstacle_centers (Level.new F G seed).1) inputs

/-- Collision tick index of a whole run. -/
def full_collision_tick (F : ℕ → ℕ → ℚ → ℚ → ℚ) (G : ℕ → ℕ → ℕ → ℕ → ℕ) (seed : ℕ)
    (inputs : List Input) : Option ℕ :=
  collision_tick (obstacle_centers (Level.new F G seed).1) inputs

/-- A concrete float stream (every draw returns the lower bound), used to
instantiate stream-quantified theorems on closed inputs. -/
def F0 : ℕ → ℕ → ℚ → ℚ → ℚ := fun _ _ lo _ => lo

/-- A concrete integer stream (every draw returns the lower bound). -/
def G0 : ℕ → ℕ → ℕ → ℕ → ℕ := fun _ _ lo _ => lo

/-- Input held on no key. -/
def idle : Input := { jump := false, boost := false }

/-- Input sequence of a single full jump arc: jump pressed on the first tick,
nothing afterwards; 120 ticks in total, one more than the airborne duration. -/
def jump_arc_inputs : List Input :=
  { jump := true, boost := false } :: List.replicate 119 idle

/-- Invariant of the world state maintained by every tick: the two terminal
flags agree, the player and camera horizontal velocities agree, a player on
the floor sits at height zero, and a player below the floor is airborne. -/
def WorldInv (w : World) : Prop :=
  w.player.collided = w.camera.stopped ∧
  w.player.velocity_x = w.camera.velocity_x ∧
  (w.player.jumping = JumpState.OnFloor → w.player.y = 0) ∧
  (w.player.y < 0 → w.player.jumping = JumpState.InAir)

theorem check_for_collisions_foldl (p : Player) (obstacles : List (ℚ × ℚ)) :
    ∀ (q : Player) (c : Camera) (n : ℕ),
      obstacles.foldl
        (fun st o =>
          if collides p.x p.y o.1 o.2 then
            ({ st.1 with collided := true }, { st.2.1 with stopped := true }, st.2.2 + 1)
          else st)
        (q, c, n)
      = ({ q with collided := q.collided || obstacles.any fun o => collides p.x p.y o.1 o.2 },
         { c with stopped := c.stopped || obstacles.any fun o => collides p.x p.y o.1 o.2 },
         n + obstacles.countP fun o => collides p.x p.y o.1 o.2) := by
  induction obstacles with
  | nil => intro q c n; simp
  | cons o t ih =>
    intro q c n
    rcases q with ⟨qx, qy, qvx, qvy, qj, qc⟩
    rcases c with ⟨cx, cvx, cs⟩
    by_cases h : collides p.x p.y o.1 o.2
    · simp [h, ih, List.countP_cons]
      omega
    · simp [h, ih, List.countP_cons]

theorem check_for_collisions_spec (obstacles : List (ℚ × ℚ)) (p : Player) (c : Camera) :
    check_for_collisions obstacles p c
      = ({ p with collided := p.collided || obstacles.any fun o => collides p.x p.y o.1 o.2 },
         { c with stopped := c.stopped || obstacles.any fun o => collides p.x p.y o.1 o.2 },
         obstacles.countP fun o => collides p.x p.y o.1 o.2) := by
  rw [check_for_collisions, check_for_collisions_foldl]
  simp

theorem pms_collided_true (input : Input) (p : Player) (h : p.collided = true) :
    player_movement_system input p = p := by
  simp [player_movement_system, h]

theorem pms_collided_eq (input : Input) (p : Player) :
    (player_movement_system input p).collided = p.collided := by
  rcases p with ⟨px, py, pvx, pvy, pj, pc⟩
  rcases input with ⟨ij, ib⟩
  cases pc
  · by_cases hy : py < 0
    · cases ij <;> cases pj <;> simp [player_movement_system, if_pos hy]
    · cases ij <;> cases pj <;> simp [player_movement_system, if_neg hy]
  · simp [player_movement_system]

theorem pms_horizontal (input : Input) (p : Player) (h : p.collided = false) :
    (player_movement_system input p).velocity_x
        = (if input.boost then BOOST_VELOCITY else SCROLL_VELOCITY) ∧
    (player_movement_system input p).x
        = p.x + (if input.boost then BOOST_VELOCITY else SCROLL_VELOCITY) * TIME_STEP := by
  rcases p with ⟨px, py, pvx, pvy, pj, pc⟩
  cases h
  rcases input with ⟨ij, ib⟩
  by_cases hy : py < 0
  · cases ij <;> cases ib <;> cases pj <;> simp [player_movement_system, if_pos hy]
  · cases ij <;> cases ib <;> cases pj <;> simp [player_movement_system, if_neg hy]

theorem pms_onfloor_y (input : Input) (p : Player) (h : p.collided = false)
    (h2 : (player_movement_system input p).jumping = JumpState.OnFloor) :
    (player_movement_system input p).y = 0 := by
  rcases p with ⟨px, py, pvx, pvy, pj, pc⟩
  cases h
  rcases input with ⟨ij, ib⟩
  by_cases hy : py < 0
  · cases ij <;> cases pj <;> simp_all [player_movement_system, if_pos hy]
  · cases ij <;> cases pj <;> simp_all [player_movement_system, if_neg hy]

theorem pms_y_neg_inair (input : Input) (p : Player) (h : p.collided = false)
    (h2 : (player_movement_system input p).y < 0) :
    (player_movement_system input p).jumping = JumpState.InAir := by
  cases hj : (player_movement_system input p).jumping
  · rw [pms_onfloor_y input p h hj] at h2
    exact absurd h2 (lt_irrefl 0)
  · rfl

theorem pms_clamp (input : Input) (p : Player) (h : p.collided = false)
    (h2 : p.y < 0) :
    (player_movement_system input p).y = 0 ∧
    (player_movement_system input p).jumping = JumpState.OnFloor := by
  rcases p with ⟨px, py, pvx, pvy, pj, pc⟩
  cases h
  rcases input with ⟨ij, ib⟩
  cases ij <;> cases pj <;> simp [player_movement_system, if_pos h2]

theorem cms_stopped_true (input : Input) (c : Camera) (h : c.stopped = true) :
    camera_movement_system input c = c := by
  simp [camera_movement_system, h]

theorem cms_stopped_eq (input : Input) (c : Camera) :
    (camera_movement_system input c).stopped = c.stopped := by
  rcases c with ⟨cx, cvx, cs⟩
  cases cs <;> simp [camera_movement_system]

theorem cms_horizontal (input : Input) (c : Camera) (h : c.stopped = false) :
    (camera_movement_system input c).velocity_x
        = (if input.boost then BOOST_VELOCITY else SCROLL_VELOCITY) ∧
    (camera_movement_system input c).x
        = c.x + (if input.boost then BOOST_VELOCITY else SCROLL_VELOCITY) * TIME_STEP := by
  rcases c with ⟨cx, cvx, cs⟩
  cases h
  rcases input with ⟨ij, ib⟩
  cases ib <;> simp [camera_movement_system]

theorem tick_spec (obstacles : List (ℚ × ℚ)) (input : Input) (w : World) :
    tick obstacles input w
      = { player :=
            { player_movement_system input w.player with
              collided := (player_movement_system input w.player).collided ||
                obstacles.any fun o =>
                  collides (player_movement_system input w.player).x
                    (player_movement_system input w.player).y o.1 o.2 }
          camera :=
            { camera_movement_system input w.camera with
              stopped := (camera_movement_system input w.camera).stopped ||
                obstacles.any fun o =>
                  collides (player_movement_system input w.player).x
                    (player_movement_system input w.player).y o.1 o.2 } } := by
  simp [tick, tick_with_events, check_for_collisions_spec]

theorem tick_events_spec (obstacles : List (ℚ × ℚ)) (input : Input) (w : World) :
    (tick_with_events obstacles input w).2
      = obstacles.countP fun o =>
          collides (player_movement_system input w.player).x
            (player_movement_system input w.player).y o.1 o.2 := by
  simp [tick_with_events, check_for_collisions_spec]

theorem tick_frozen (obstacles : List (ℚ × ℚ)) (input : Input) (w : World)
    (h1 : w.player.collided = true) (h2 : w.camera.stopped = true) :
    tick obstacles input w = w := by
  rcases w with ⟨p, c⟩
  rcases p with ⟨px, py, pvx, pvy, pj, pc⟩
  rcases c with ⟨cx, cvx, cs⟩
  simp only at h1 h2
  subst h1; subst h2
  simp [tick_spec, player_movement_system, camera_movement_system]

theorem tick_inv (obstacles : List (ℚ × ℚ)) (input : Input) (w : World)
    (h : WorldInv w) : WorldInv (tick obstacles input w) := by
  obtain ⟨h1, h2, h3, h4⟩ := h
  by_cases hc : w.player.collided = true
  · have hs : w.camera.stopped = true := h1 ▸ hc
    rw [tick_frozen obstacles input w hc hs]
    exact ⟨h1, h2, h3, h4⟩
  · have hc2 : w.player.collided = false := by
      cases hcc : w.player.collided
      · rfl
      · exact absurd hcc hc
    have hs2 : w.camera.stopped = false := h1 ▸ hc2
    rw [tick_spec]
    refine ⟨?_, ?_, ?_, ?_⟩
    · simp [pms_collided_eq, cms_stopped_eq, hc2, hs2]
    · simp [(pms_horizontal input w.player hc2).1, (cms_horizontal input w.camera hs2).1]
    · intro hj
      simp only at hj
      exact pms_onfloor_y input w.player hc2 hj
    · intro hyn
      simp only at hyn
      exact pms_y_neg_inair input w.player hc2 hyn

theorem runFrom_nil (obstacles : List (ℚ × ℚ)) (w : World) :
    runFrom obstacles w [] = w := rfl

theorem runFrom_cons (obstacles : List (ℚ × ℚ)) (w : World) (i : Input)
    (rest : List Input) :
    runFrom obstacles w (i :: rest) = runFrom obstacles (tick obstacles i w) rest := rfl

theorem runFrom_inv (obstacles : List (ℚ × ℚ)) (inputs : List Input) :
    ∀ w : World, WorldInv w → WorldInv (runFrom obstacles w inputs) := by
  induction inputs with
  | nil => intro w h; exact h
  | cons i rest ih => intro w h; exact ih _ (tick_inv obstacles i w h)

theorem default_inv : WorldInv World.default :=
  ⟨rfl, rfl, fun _ => rfl, fun h => absurd h (lt_irrefl 0)⟩

theorem run_inv (obstacles : List (ℚ × ℚ)) (inputs : List Input) :
    WorldInv (run obstacles inputs) :=
  runFrom_inv obstacles inputs World.default default_inv

theorem runFrom_frozen (obstacles : List (ℚ × ℚ)) (inputs : List Input) :
    ∀ w : World, w.player.collided = true → w.camera.stopped = true →
      runFrom obstacles w inputs = w := by
  induction inputs with
  | nil => intro w _ _; rfl
  | cons i rest ih =>
    intro w h1 h2
    rw [runFrom_cons, tick_frozen obstacles i w h1 h2]
    exact ih w h1 h2

theorem collides_iff_sqrt (x1 y1 x2 y2 : ℚ) :
    collides x1 y1 x2 y2 = true ↔
      Real.sqrt (((x2 : ℝ) - (x1 : ℝ)) ^ 2 + ((y2 : ℝ) - (y1 : ℝ)) ^ 2) ≤ 1 := by
  have hsr : ((SPHERE_RADIUS * 2 : ℚ)) ^ 2 = 1 := by norm_num [SPHERE_RADIUS]
  rw [collides, hsr, decide_eq_true_iff]
  rw [← Real.sqrt_one, Real.sqrt_le_sqrt_iff (by norm_num)]
  exact_mod_cast Iff.rfl

theorem foldl_range_trace {α : Type} (step : α × RngState → ℕ → α × RngState)
    (B : List RngCall) (hB : ∀ st i, (step st i).2.trace = B ++ st.2.trace) :
    ∀ (n : ℕ) (st : α × RngState),
      ((List.range n).foldl step st).2.trace
        = (List.replicate n B).flatten ++ st.2.trace := by
  intro n
  induction n with
  | zero => intro st; simp
  | succ m ih =>
    intro st
    rw [List.range_succ, List.foldl_append, List.foldl_cons, List.foldl_nil, hB, ih]
    simp [List.replicate_succ, List.append_assoc]

theorem foldl_range_length {α : Type} (step : List α × RngState → ℕ → List α × RngState)
    (m : ℕ) (hL : ∀ st i, (step st i).1.length = st.1.length + m) :
    ∀ (n : ℕ) (st : List α × RngState),
      ((List.range n).foldl step st).1.length = st.1.length + n * m := by
  intro n
  induction n with
  | zero => intro st; simp
  | succ k ih =>
    intro st
    rw [List.range_succ, List.foldl_append, List.foldl_cons, List.foldl_nil, hL, ih]
    ring

theorem obstacle_step_trace (f : ℕ → ℚ → ℚ → ℚ) (g : ℕ → ℕ → ℕ → ℕ)
    (st : List Obstacle × RngState) :
    (obstacle_step f g st).2.trace = obstacle_block.reverse ++ st.2.trace := rfl

theorem light_step_trace (f : ℕ → ℚ → ℚ → ℚ) (st : List (ℚ × ℚ) × RngState) :
    (light_step f st).2.trace = light_block.reverse ++ st.2.trace := rfl

theorem bg_cell_step_trace (f : ℕ → ℚ → ℚ → ℚ) (g : ℕ → ℕ → ℕ → ℕ) (x : ℤ)
    (j : ℕ) (st : List BgObject × RngState) :
    (bg_cell_step f g x j st).2.trace = bg_block.reverse ++ st.2.trace := rfl

theorem bg_column_step_trace (f : ℕ → ℚ → ℚ → ℚ) (g : ℕ → ℕ → ℕ → ℕ) (i : ℕ)
    (st : List BgObject × RngState) :
    (bg_column_step f g i st).2.trace
      = (List.replicate 10 bg_block.reverse).flatten ++ st.2.trace :=
  foldl_range_trace _ _ (fun st2 j => bg_cell_step_trace f g (LEVEL_MIN_X + (i : ℤ)) j st2)
    10 st

theorem obstacle_step_length (f : ℕ → ℚ → ℚ → ℚ) (g : ℕ → ℕ → ℕ → ℕ)
    (st : List Obstacle × RngState) :
    (obstacle_step f g st).1.length = st.1.length + 1 := rfl

theorem light_step_length (f : ℕ → ℚ → ℚ → ℚ) (st : List (ℚ × ℚ) × RngState) :
    (light_step f st).1.length = st.1.length + 1 := rfl

theorem bg_cell_step_length (f : ℕ → ℚ → ℚ → ℚ) (g : ℕ → ℕ → ℕ → ℕ) (x : ℤ)
    (j : ℕ) (st : List BgObject × RngState) :
    (bg_cell_step f g x j st).1.length = st.1.length + 1 := rfl

theorem bg_column_step_length (f : ℕ → ℚ → ℚ → ℚ) (g : ℕ → ℕ → ℕ → ℕ) (i : ℕ)
    (st : List BgObject × RngState) :
    (bg_column_step f g i st).1.length = st.1.length + 10 := by
  have := foldl_range_length
    (fun st2 j => bg_cell_step f g (LEVEL_MIN_X + (i : ℤ)) j st2) 1
    (fun st2 j => bg_cell_step_length f g (LEVEL_MIN_X + (i : ℤ)) j st2) 10 st
  simpa [bg_column_step] using this

theorem flatten_replicate_flatten {α : Type} (k : ℕ) (B : List α) :
    ∀ m : ℕ, (List.replicate m (List.replicate k B).flatten).flatten
      = (List.replicate (m * k) B).flatten := by
  intro m
  induction m with
  | zero => simp
  | succ mm ih =>
    rw [List.replicate_succ, List.flatten_cons, ih]
    have hmk : (mm + 1) * k = k + mm * k := by ring
    rw [hmk, List.replicate_add, List.flatten_append]

theorem reverse_flatten_replicate_reverse {α : Type} (B : List α) :
    ∀ n : ℕ, ((List.replicate n B.reverse).flatten).reverse
      = (List.replicate n B).flatten := by
  intro n
  induction n with
  | zero => simp
  | succ m ih =>
    rw [List.replicate_succ, List.flatten_cons, List.reverse_append, ih,
      List.reverse_reverse, List.replicate_succ', List.flatten_append]
    simp

theorem Level.new_trace (F : ℕ → ℕ → ℚ → ℚ → ℚ) (G : ℕ → ℕ → ℕ → ℕ → ℕ)
    (seed : ℕ) :
    (Level.new F G seed).2.trace
      = (List.replicate ((LEVEL_MAX_X - LEVEL_MIN_X).toNat * 10) bg_block.reverse).flatten ++
        ((List.replicate LIGHT_COUNT light_block.reverse).flatten ++
          (List.replicate OBSTACLE_COUNT obstacle_block.reverse).flatten) := by
  simp only [Level.new]
  rw [foldl_range_trace (fun st i => bg_column_step (F seed) (G seed) i st)
      ((List.replicate 10 bg_block.reverse).flatten)
      (fun st i => bg_column_step_trace (F seed) (G seed) i st)]
  rw [foldl_range_trace (fun st _ => light_step (F seed) st) light_block.reverse
      (fun st _ => light_step_trace (F seed) st)]
  rw [foldl_range_trace (fun st _ => obstacle_step (F seed) (G seed) st)
      obstacle_block.reverse
      (fun st _ => obstacle_step_trace (F seed) (G seed) st)]
  rw [flatten_replicate_flatten]
  simp

theorem Level.new_trace_reverse (F : ℕ → ℕ → ℚ → ℚ → ℚ) (G : ℕ → ℕ → ℕ → ℕ → ℕ)
    (seed : ℕ) :
    (Level.new F G seed).2.trace.reverse = contractual_trace := by
  rw [Level.new_trace, List.reverse_append, List.reverse_append,
    reverse_flatten_replicate_reverse, reverse_flatten_replicate_reverse,
    reverse_flatten_replicate_reverse, contractual_trace, List.append_assoc]

theorem Level.new_lengths (F : ℕ → ℕ → ℚ → ℚ → ℚ) (G : ℕ → ℕ → ℕ → ℕ → ℕ)
    (seed : ℕ) :
    (Level.new F G seed).1.obstacles.length = OBSTACLE_COUNT ∧
    (Level.new F G seed).1.lights.length = LIGHT_COUNT ∧
    (Level.new F G seed).1.bg_objects.length = 2100 := by
  simp only [Level.new]
  refine ⟨?_, ?_, ?_⟩
  · rw [List.length_reverse]
    rw [foldl_range_length (fun st _ => obstacle_step (F seed) (G seed) st) 1
        (fun st _ => obstacle_step_length (F seed) (G seed) st)]
    simp
  · rw [List.length_reverse]
    rw [foldl_range_length (fun st _ => light_step (F seed) st) 1
        (fun st _ => light_step_length (F seed) st)]
    simp
  · rw [List.length_reverse]
    rw [foldl_range_length (fun st i => bg_column_step (F seed) (G seed) i st) 10
        (fun st i => bg_column_step_length (F seed) (G seed) i st)]
    simp [LEVEL_MAX_X, LEVEL_MIN_X]

theorem format6_length (n : ℕ) (h : n < 10 ^ 6) : (format6 n).length = 6 := by
  have hle : (Nat.digits 10 n).length ≤ 6 := by
    rcases Nat.eq_zero_or_pos n with h0 | h0
    · subst h0; simp
    · rw [Nat.digits_len 10 n (by norm_num) h0.ne']
      have := Nat.log_lt_of_lt_pow h0.ne' h
      omega
  simp only [format6, List.length_append, List.length_replicate, List.length_map,
    List.length_reverse]
  omega

theorem format6_chars (n : ℕ) (c : Char) (hc : c ∈ format6 n) :
    ∃ d, d < 10 ∧ c = Nat.digitChar d := by
  simp only [format6, List.mem_append, List.mem_replicate, List.mem_map,
    List.mem_reverse] at hc
  rcases hc with ⟨_, rfl⟩ | ⟨d, hd, rfl⟩
  · exact ⟨0, by norm_num, rfl⟩
  · exact ⟨d, Nat.digits_lt_base (by norm_num) hd, rfl⟩

theorem hexDigitVal_digitChar (d : ℕ) (hd : d < 10) :
    hexDigitVal (Nat.digitChar d) = some d := by
  interval_cases d <;> decide

theorem colorHex_foldl_some :
    ∀ cs : List Char, (∀ c ∈ cs, ∃ d, d < 16 ∧ hexDigitVal c = some d) →
      ∀ a : ℕ, ∃ v,
        cs.foldl (fun acc c => acc.bind fun x => (hexDigitVal c).map fun d => x * 16 + d)
          (some a) = some v ∧ v < (a + 1) * 16 ^ cs.length := by
  intro cs
  induction cs with
  | nil => intro _ a; exact ⟨a, rfl, by simp⟩
  | cons c t ih =>
    intro h a
    obtain ⟨d, hd16, hval⟩ := h c (by simp)
    obtain ⟨v, hv, hbound⟩ := ih (fun x hx => h x (by simp [hx])) (a * 16 + d)
    refine ⟨v, ?_, ?_⟩
    · rw [List.foldl_cons]
      simpa [hval] using hv
    · have h1 : v < (a * 16 + d + 1) * 16 ^ t.length := hbound
      have h2 : (a * 16 + d + 1) * 16 ^ t.length ≤ ((a + 1) * 16) * 16 ^ t.length := by
        have : a * 16 + d + 1 ≤ (a + 1) * 16 := by omega
        exact Nat.mul_le_mul_right _ this
      have h3 : ((a + 1) * 16) * 16 ^ t.length = (a + 1) * 16 ^ (t.length + 1) := by
        ring
      calc v < (a * 16 + d + 1) * 16 ^ t.length := h1
        _ ≤ (a + 1) * 16 ^ (t.length + 1) := h3 ▸ h2
        _ = (a + 1) * 16 ^ (c :: t).length := by simp

theorem colorHex_format6 (n : ℕ) (h : n < 999999) :
    ∃ v, colorHex (format6 n) = some v ∧ v < 16 ^ 6 := by
  have h6 : n < 10 ^ 6 := lt_trans h (by norm_num)
  have hlen := format6_length n h6
  have hch : ∀ c ∈ format6 n, ∃ d, d < 16 ∧ hexDigitVal c = some d := by
    intro c hc
    obtain ⟨d, hd, rfl⟩ := format6_chars n c hc
    exact ⟨d, by omega, hexDigitVal_digitChar d hd⟩
  obtain ⟨v, hv, hb⟩ := colorHex_foldl_some (format6 n) hch 0
  refine ⟨v, ?_, ?_⟩
  · rw [colorHex, if_pos hlen]
    exact hv
  · rw [hlen] at hb
    simpa using hb

unseal Rat.add Rat.mul Rat.inv Rat.sub

set_option maxRecDepth 40000

/-- C1: for every 64-bit seed, level generation is deterministic — equal seeds
give identical `Level`s — and full runs with equal seeds and equal per-tick
input sequences produce identical player position, camera position and
collision tick index. -/
theorem level_and_run_deterministic (F : ℕ → ℕ → ℚ → ℚ → ℚ)
    (G : ℕ → ℕ → ℕ → ℕ → ℕ) (seed1 seed2 : ℕ) (inputs1 inputs2 : List Input)
    (hseed : seed1 = seed2) (hinputs : inputs1 = inputs2) :
    Level.new F G seed1 = Level.new F G seed2 ∧
    (full_run F G seed1 inputs1).player.x = (full_run F G seed2 inputs2).player.x ∧
    (full_run F G seed1 inputs1).player.y = (full_run F G seed2 inputs2).player.y ∧
    (full_run F G seed1 inputs1).camera.x = (full_run F G seed2 inputs2).camera.x ∧
    full_collision_tick F G seed1 inputs1 = full_collision_tick F G seed2 inputs2 := by
  subst hseed; subst hinputs
  exact ⟨rfl, rfl, rfl, rfl, rfl⟩

/-- C1 witness: determinism instantiated at seed `0x1234_5678`, one idle tick. -/
theorem level_and_run_deterministic_witness :
    Level.new F0 G0 0x12345678 = Level.new F0 G0 0x12345678 ∧
    (full_run F0 G0 0x12345678 [idle]).player.x
        = (full_run F0 G0 0x12345678 [idle]).player.x ∧
    (full_run F0 G0 0x12345678 [idle]).player.y
        = (full_run F0 G0 0x12345678 [idle]).player.y ∧
    (full_run F0 G0 0x12345678 [idle]).camera.x
        = (full_run F0 G0 0x12345678 [idle]).camera.x ∧
    full_collision_tick F0 G0 0x12345678 [idle]
        = full_collision_tick F0 G0 0x12345678 [idle] :=
  level_and_run_deterministic F0 G0 0x12345678 0x12345678 [idle] [idle] rfl rfl

/-- C2: for every seed (that is, for every pair of PRNG value streams),
`Level::new` makes its `gen_range` calls in exactly the contractual order —
40 obstacle blocks, then 150 light blocks, then 2100 background blocks — and
therefore yields exactly 40 obstacles, 150 lights and 2100 bg objects;
`random_material` draws metallic, perceptual roughness and a color integer in
`[0, 999999)`, in that order. -/
theorem level_new_contractual_order (F : ℕ → ℕ → ℚ → ℚ → ℚ)
    (G : ℕ → ℕ → ℕ → ℕ → ℕ) (seed : ℕ) :
    (Level.new F G seed).2.trace.reverse = contractual_trace ∧
    (Level.new F G seed).1.obstacles.length = 40 ∧
    (Level.new F G seed).1.lights.length = 150 ∧
    (Level.new F G seed).1.bg_objects.length = 2100 ∧
    (∀ s : RngState, (random_material (F seed) (G seed) s).2.trace
        = material_trace.reverse ++ s.trace) := by
  refine ⟨Level.new_trace_reverse F G seed, ?_, ?_,
    (Level.new_lengths F G seed).2.2, fun s => rfl⟩
  · exact (Level.new_lengths F G seed).1
  · exact (Level.new_lengths F G seed).2.1

/-- C3 counterexample: the claimed invariant `post-tick player.position.y ≥ 0`
fails on the code — a full jump arc from the initial state (jump on the first
tick, nothing afterwards, no obstacle nearby) exits its 120th tick with
`y = -1/12 < 0`, because the floor clamp runs before vertical integration. -/
theorem post_tick_y_nonneg_ctrex :
    (run [] jump_arc_inputs).player.y < 0 := by decide

/-- C3 (amended): after a tick the player's height may be negative, but only
while airborne, and the first following tick of a non-collided player clamps
it back: if a run exits with `y < 0` the player is `InAir`, and one more tick
(any input) of a non-collided player exits with `y = 0` and `OnFloor`. -/
theorem post_tick_y_recovery (obstacles : List (ℚ × ℚ)) (inputs : List Input)
    (i : Input) :
    ((run obstacles inputs).player.y < 0 →
      (run obstacles inputs).player.jumping = JumpState.InAir) ∧
    ((run obstacles inputs).player.y < 0 →
      (run obstacles inputs).player.collided = false →
      (tick obstacles i (run obstacles inputs)).player.y = 0 ∧
      (tick obstacles i (run obstacles inputs)).player.jumping = JumpState.OnFloor) := by
  constructor
  · exact (run_inv obstacles inputs).2.2.2
  · intro hy hc
    have h := pms_clamp i (run obstacles inputs).player hc hy
    rw [tick_spec]
    exact ⟨h.1, h.2⟩

/-- C3 witness: the recovery theorem applied to the concrete 120-tick jump arc
(which exits with `y = -1/12 < 0`, not collided), followed by one idle tick. -/
theorem post_tick_y_recovery_witness :
    (run [] jump_arc_inputs).player.y < 0 ∧
    (run [] jump_arc_inputs).player.collided = false ∧
    (tick [] idle (run [] jump_arc_inputs)).player.y = 0 ∧
    (tick [] idle (run [] jump_arc_inputs)).player.jumping = JumpState.OnFloor := by
  have h1 : (run [] jump_arc_inputs).player.y < 0 := by decide
  have h2 : (run [] jump_arc_inputs).player.collided = false := by decide
  have h := (post_tick_y_recovery [] jump_arc_inputs idle).2 h1 h2
  exact ⟨h1, h2, h.1, h.2⟩

/-- C4 counterexample: `jump_state == OnFloor` at a tick's exit does not imply
`velocity_y == 0` — after one idle tick from the initial state the player is
`OnFloor` with `velocity_y = -GRAVITY * TIME_STEP = -1/12 ≠ 0`, because
gravity is applied unconditionally each tick. -/
theorem onfloor_velocity_ctrex :
    (run [] [idle]).player.jumping = JumpState.OnFloor ∧
    (run [] [idle]).player.velocity_y ≠ 0 := by decide

/-- C4 (amended): for every reachable state, if `jump_state == OnFloor` holds
when a tick exits then `position.y == 0` at that exit (`velocity_y` need not be
zero: gravity decrements it every tick, and it is reset only by the floor
clamp or overwritten by a jump). -/
theorem onfloor_y_eq_zero (obstacles : List (ℚ × ℚ)) (inputs : List Input)
    (h : (run obstacles inputs).player.jumping = JumpState.OnFloor) :
    (run obstacles inputs).player.y = 0 :=
  (run_inv obstacles inputs).2.2.1 h

/-- C4 witness: the empty run is `OnFloor` with `y = 0`. -/
theorem onfloor_y_eq_zero_witness :
    (run [] []).player.jumping = JumpState.OnFloor ∧ (run [] []).player.y = 0 :=
  ⟨by decide, onfloor_y_eq_zero [] [] (by decide)⟩

/-- C5: the collision check sets `player.collided` exactly when some
obstacle's center is within Euclidean distance `2 * SPHERE_RADIUS = 1` of the
player's center (or `collided` was already set), and the boundary is
inclusive: distance exactly `1` collides, distance `1.0001` does not. -/
theorem collision_check_characterization :
    SPHERE_RADIUS * 2 = (1 : ℚ) ∧
    (∀ (obstacles : List (ℚ × ℚ)) (p : Player) (c : Camera),
      ((check_for_collisions obstacles p c).1.collided = true ↔
        (p.collided = true ∨ ∃ o ∈ obstacles,
          Real.sqrt (((o.1 : ℝ) - (p.x : ℝ)) ^ 2 + ((o.2 : ℝ) - (p.y : ℝ)) ^ 2) ≤ 1))) ∧
    (check_for_collisions [(-4, 0)] Player.default Camera.default).1.collided = true ∧
    (check_for_collisions [(-5 + 10001 / 10000, 0)] Player.default
        Camera.default).1.collided = false := by
  refine ⟨by norm_num [SPHERE_RADIUS], ?_, by decide, by decide⟩
  intro obstacles p c
  rw [check_for_collisions_spec]
  simp only [Bool.or_eq_true, List.any_eq_true]
  exact or_congr Iff.rfl
    (exists_congr fun o => and_congr_right fun _ => collides_iff_sqrt p.x p.y o.1 o.2)

/-- C6: once `player.collided` is set on a run it never resets, and all
further ticks leave the player's position and the camera's `x` unchanged, for
all further inputs. -/
theorem collision_freezes_run (obstacles : List (ℚ × ℚ)) (inputs more : List Input)
    (h : (run obstacles inputs).player.collided = true) :
    (runFrom obstacles (run obstacles inputs) more).player.collided = true ∧
    (runFrom obstacles (run obstacles inputs) more).player.x
        = (run obstacles inputs).player.x ∧
    (runFrom obstacles (run obstacles inputs) more).player.y
        = (run obstacles inputs).player.y ∧
    (runFrom obstacles (run obstacles inputs) more).camera.x
        = (run obstacles inputs).camera.x := by
  have hs : (run obstacles inputs).camera.stopped = true :=
    (run_inv obstacles inputs).1 ▸ h
  rw [runFrom_frozen obstacles more (run obstacles inputs) h hs]
  exact ⟨h, rfl, rfl, rfl⟩

/-- C6 witness: an obstacle at the player's spawn point collides on the first
tick; two further ticks (one boosted) change nothing. -/
theorem collision_freezes_run_witness :
    (run [(-5, 0)] [idle]).player.collided = true ∧
    ((runFrom [(-5, 0)] (run [(-5, 0)] [idle])
        [idle, { jump := true, boost := true }]).player.collided = true ∧
     (runFrom [(-5, 0)] (run [(-5, 0)] [idle])
        [idle, { jump := true, boost := true }]).player.x
        = (run [(-5, 0)] [idle]).player.x ∧
     (runFrom [(-5, 0)] (run [(-5, 0)] [idle])
        [idle, { jump := true, boost := true }]).player.y
        = (run [(-5, 0)] [idle]).player.y ∧
     (runFrom [(-5, 0)] (run [(-5, 0)] [idle])
        [idle, { jump := true, boost := true }]).camera.x
        = (run [(-5, 0)] [idle]).camera.x) :=
  ⟨by decide, collision_freezes_run [(-5, 0)] [idle]
    [idle, { jump := true, boost := true }] (by decide)⟩

/-- C7 counterexample: a run can emit more than one `Collision` event — with
an obstacle at the spawn point, two idle ticks emit two events, because the
collision check has no guard on `player.collided` and the frozen player keeps
overlapping. -/
theorem collision_event_count_ctrex :
    1 < run_events [(-5, 0)] [idle, idle] := by decide

/-- C7 (amended): the collision check emits one event per overlapping obstacle
on every tick, including every tick after the freeze: a collided, stopped
state that overlaps some obstacle emits at least one further event on the next
tick and is left unchanged by it, so the overlap — and the emission — persists
for the rest of the run. -/
theorem collision_events_after_freeze (obstacles : List (ℚ × ℚ)) (i : Input)
    (w : World) (h1 : w.player.collided = true) (h2 : w.camera.stopped = true)
    (h3 : ∃ o ∈ obstacles, collides w.player.x w.player.y o.1 o.2 = true) :
    1 ≤ (tick_with_events obstacles i w).2 ∧ (tick_with_events obstacles i w).1 = w := by
  constructor
  · rw [tick_events_spec, pms_collided_true i w.player h1]
    exact List.countP_pos_iff.mpr h3
  · exact tick_frozen obstacles i w h1 h2

/-- C7 witness: the frozen-overlap theorem applied to the world after one idle
tick against an obstacle at the spawn point. -/
theorem collision_events_after_freeze_witness :
    (run [(-5, 0)] [idle]).player.collided = true ∧
    (run [(-5, 0)] [idle]).camera.stopped = true ∧
    (∃ o ∈ [((-5 : ℚ), (0 : ℚ))],
      collides (run [(-5, 0)] [idle]).player.x (run [(-5, 0)] [idle]).player.y
        o.1 o.2 = true) ∧
    1 ≤ (tick_with_events [(-5, 0)] idle (run [(-5, 0)] [idle])).2 ∧
    (tick_with_events [(-5, 0)] idle (run [(-5, 0)] [idle])).1
      = run [(-5, 0)] [idle] := by
  have h1 : (run [(-5, 0)] [idle]).player.collided = true := by decide
  have h2 : (run [(-5, 0)] [idle]).camera.stopped = true := by decide
  have h3 : ∃ o ∈ [((-5 : ℚ), (0 : ℚ))],
      collides (run [(-5, 0)] [idle]).player.x (run [(-5, 0)] [idle]).player.y
        o.1 o.2 = true := by decide
  have h := collision_events_after_freeze [(-5, 0)] idle (run [(-5, 0)] [idle]) h1 h2 h3
  exact ⟨h1, h2, h3, h.1, h.2⟩

/-- C8: on a tick taken from a reachable non-collided state, the player's and
the camera's horizontal velocities are both set to `BOOST_VELOCITY` if boost
is held and `SCROLL_VELOCITY` otherwise, both positions advance by that
velocity times `TIME_STEP`, and on every reachable state the two horizontal
velocities agree. -/
theorem horizontal_velocity_lockstep :
    (∀ (obstacles : List (ℚ × ℚ)) (inputs : List Input) (i : Input),
      (run obstacles inputs).player.collided = false →
      ((tick obstacles i (run obstacles inputs)).player.velocity_x
          = (if i.boost then BOOST_VELOCITY else SCROLL_VELOCITY) ∧
       (tick obstacles i (run obstacles inputs)).camera.velocity_x
          = (if i.boost then BOOST_VELOCITY else SCROLL_VELOCITY) ∧
       (tick obstacles i (run obstacles inputs)).player.x
          = (run obstacles inputs).player.x
            + (if i.boost then BOOST_VELOCITY else SCROLL_VELOCITY) * TIME_STEP ∧
       (tick obstacles i (run obstacles inputs)).camera.x
          = (run obstacles inputs).camera.x
            + (if i.boost then BOOST_VELOCITY else SCROLL_VELOCITY) * TIME_STEP)) ∧
    (∀ (obstacles : List (ℚ × ℚ)) (inputs : List Input),
      (run obstacles inputs).player.velocity_x
        = (run obstacles inputs).camera.velocity_x) := by
  constructor
  · intro obstacles inputs i hc
    have hs : (run obstacles inputs).camera.stopped = false :=
      (run_inv obstacles inputs).1 ▸ hc
    have hp := pms_horizontal i (run obstacles inputs).player hc
    have hcm := cms_horizontal i (run obstacles inputs).camera hs
    rw [tick_spec]
    exact ⟨hp.1, hcm.1, hp.2, hcm.2⟩
  · intro obstacles inputs
    exact (run_inv obstacles inputs).2.1

/-- C8 witness: one boosted tick from the initial state. -/
theorem horizontal_velocity_lockstep_witness :
    (run [] []).player.collided = false ∧
    ((tick [] { jump := false, boost := true } (run [] [])).player.velocity_x
        = (if ({ jump := false, boost := true } : Input).boost then BOOST_VELOCITY
           else SCROLL_VELOCITY) ∧
     (tick [] { jump := false, boost := true } (run [] [])).camera.velocity_x
        = (if ({ jump := false, boost := true } : Input).boost then BOOST_VELOCITY
           else SCROLL_VELOCITY) ∧
     (tick [] { jump := false, boost := true } (run [] [])).player.x
        = (run [] []).player.x
          + (if ({ jump := false, boost := true } : Input).boost then BOOST_VELOCITY
             else SCROLL_VELOCITY) * TIME_STEP ∧
     (tick [] { jump := false, boost := true } (run [] [])).camera.x
        = (run [] []).camera.x
          + (if ({ jump := false, boost := true } : Input).boost then BOOST_VELOCITY
             else SCROLL_VELOCITY) * TIME_STEP) :=
  ⟨by decide, horizontal_velocity_lockstep.1 [] [] { jump := false, boost := true }
    (by decide)⟩

/-- C9: under the `gen_range` contract (values lie in `[lo, hi)`), the color
parse inside `random_material` cannot fail: every color draw lies in
`[0, 999999)`, the zero-padded six-digit decimal formatting of any such value
is a valid 24-bit hex color string, and the parsed `base_color` of the
produced material is always `some` value below `0x1000000` — the `unwrap` is
unreachable. -/
theorem random_material_color_parse_total (f : ℕ → ℚ → ℚ → ℚ)
    (g : ℕ → ℕ → ℕ → ℕ) (s : RngState)
    (hg : ∀ k lo hi, lo < hi → lo ≤ g k lo hi ∧ g k lo hi < hi) :
    (∀ k : ℕ, g k 0 999999 < 999999) ∧
    (∀ n : ℕ, n < 999999 → ∃ v, colorHex (format6 n) = some v ∧ v < 16 ^ 6) ∧
    ∃ v, (random_material f g s).1.base_color = some v ∧ v < 16 ^ 6 := by
  refine ⟨fun k => (hg k 0 999999 (by norm_num)).2,
    fun n hn => colorHex_format6 n hn, ?_⟩
  simp only [random_material, gen_range_f, gen_range_u]
  exact colorHex_format6 (g (s.k + 1 + 1) 0 999999)
    ((hg (s.k + 1 + 1) 0 999999 (by norm_num)).2)

/-- C9 witness: the parse-totality theorem instantiated with the
lower-bound streams and the initial PRNG state. -/
theorem random_material_color_parse_total_witness :
    (∀ k : ℕ, G0 0 k 0 999999 < 999999) ∧
    (∀ n : ℕ, n < 999999 → ∃ v, colorHex (format6 n) = some v ∧ v < 16 ^ 6) ∧
    ∃ v, (random_material (F0 0) (G0 0) { k := 0, trace := [] }).1.base_color
        = some v ∧ v < 16 ^ 6 :=
  random_material_color_parse_total (F0 0) (G0 0) { k := 0, trace := [] }
    (fun _ lo _ h => ⟨Nat.le_refl lo, h⟩)

/-- C10: both terminal flags start false and at every tick boundary
`player.collided = camera.stopped` — the collision check is the only writer
and always sets both together. -/
theorem collided_eq_stopped :
    World.default.player.collided = false ∧
    World.default.camera.stopped = false ∧
    ∀ (obstacles : List (ℚ × ℚ)) (inputs : List Input),
      (run obstacles inputs).player.collided = (run obstacles inputs).camera.stopped :=
  ⟨rfl, rfl, fun obstacles inputs => (run_inv obstacles inputs).1⟩

end Jump
